import Mathlib

/-!
Verification development for the WranglerMaster automation supervisor,
a shallow embedding of src/WranglerMaster/wrangler_master.py.  Line
numbers in the doc comments below refer to that file.  Machine-level
concerns (HTTP transport, the Tk widget layer, threads) appear only at
their interface boundary: an HTTP call is a value of an outcome type,
and a spawned dispatch thread is an entry of an explicit pending list.
-/

/-- Run mode configuration (class AdvancedRunConfig, lines 78 to 88),
with the same field defaults as the Python dataclass. -/
structure AdvancedRunConfig where
  mode : String := "none"
  timer_hours : Int := 0
  timer_minutes : Int := 30
  schedule_start_hour : Int := 8
  schedule_start_minute : Int := 0
  schedule_end_hour : Int := 22
  schedule_end_minute : Int := 0
  use_resume : Bool := false
  deriving DecidableEq

/-- Status record of one instance (class InstanceStatus, lines 125 to 139),
with the same field defaults as the Python dataclass. -/
structure InstanceStatus where
  state : String := "unknown"
  is_executing : Bool := false
  has_pending_order : Bool := false
  has_incomplete_orders : Bool := false
  current_file : String := "None"
  api_status : String := "Unknown"
  bot_running : Bool := false
  reachable : Bool := false
  error : Option String := none
  character_name : String := "Unknown"
  world_name : String := "Unknown"
  runtime_seconds : Int := 0
  deriving DecidableEq

/-- Managed instance (class WranglerInstance, lines 91 to 122).  The
persisted advanced_config dict written by set_advanced_config holds
exactly the eight fields of AdvancedRunConfig, so it is modelled by an
optional AdvancedRunConfig. -/
structure WranglerInstance where
  name : String
  host : String
  port : Int
  enabled : Bool := true
  go_home_after_session : Bool := false
  advanced_config : Option AdvancedRunConfig := none
  deriving DecidableEq

/-- WranglerInstance.get_advanced_config (lines 105 to 109): returns the
stored config, or a default AdvancedRunConfig when none was ever set.
It is a pure read of the instance. -/
def get_advanced_config (i : WranglerInstance) : AdvancedRunConfig :=
  match i.advanced_config with
  | none => {}
  | some d => d

/-- WranglerInstance.set_advanced_config (lines 111 to 122): stores the
eight fields of the given config into the advanced_config dict. -/
def set_advanced_config (i : WranglerInstance) (c : AdvancedRunConfig) : WranglerInstance :=
  { i with
    advanced_config := some
      { mode := c.mode
        timer_hours := c.timer_hours
        timer_minutes := c.timer_minutes
        schedule_start_hour := c.schedule_start_hour
        schedule_start_minute := c.schedule_start_minute
        schedule_end_hour := c.schedule_end_hour
        schedule_end_minute := c.schedule_end_minute
        use_resume := c.use_resume } }

/-- Fields of the JSON body of GET /status; each field is optional
because the code reads every one with data.get and a default
(lines 170 to 179). -/
structure StatusJson where
  state : Option String := none
  isExecuting : Option Bool := none
  hasPendingOrder : Option Bool := none
  hasIncompleteOrders : Option Bool := none
  currentFile : Option String := none
  apiStatus : Option String := none
  botRunning : Option Bool := none
  characterName : Option String := none
  worldName : Option String := none
  runtimeSeconds : Option Int := none
  deriving DecidableEq

/-- Outcome of the single HTTP GET performed by WranglerClient.get_status:
either a response carrying its status code and the result of parsing its
JSON body (Except.error carries the message of the decode exception; on a
non-200 code the body is never parsed by the code, so the field is simply
unused there), or one of the exceptions caught at lines 185 to 193. -/
inductive FetchOutcome where
  | response (status_code : Int) (parsed : Except String StatusJson)
  | connectionError
  | timeout
  | otherError (msg : String)

/-- Field extraction performed on a 200 response with well-formed JSON
(lines 169 to 180): each field via data.get with its default, then
reachable is set to true; the error field keeps its default none. -/
def parse_status_fields (d : StatusJson) : InstanceStatus :=
  { state := d.state.getD "unknown"
    is_executing := d.isExecuting.getD false
    has_pending_order := d.hasPendingOrder.getD false
    has_incomplete_orders := d.hasIncompleteOrders.getD false
    current_file := d.currentFile.getD "None"
    api_status := d.apiStatus.getD "Unknown"
    bot_running := d.botRunning.getD false
    character_name := d.characterName.getD "Unknown"
    world_name := d.worldName.getD "Unknown"
    runtime_seconds := d.runtimeSeconds.getD 0
    reachable := true }

/-- WranglerClient.get_status (lines 157 to 195): a total function over
every fetch outcome.  A 200 response with well-formed JSON yields the
parsed fields with reachable true; a non-200 code yields the HTTP error
string (lines 181 to 183); the three except clauses yield the connection,
timeout and generic classifications (lines 185 to 193).  All failure
branches leave the dataclass default reachable false. -/
def get_status (r : FetchOutcome) : InstanceStatus :=
  match r with
  | .response code parsed =>
      if code = 200 then
        match parsed with
        | .ok d => parse_status_fields d
        | .error m => { error := some m }
      else
        { error := some ("HTTP " ++ toString code) }
  | .connectionError => { error := some "Connection refused" }
  | .timeout => { error := some "Timeout" }
  | .otherError m => { error := some m }

/-- Window test on precomputed minute-of-day values, exactly the branch
at lines 1782 to 1785 of _check_schedule_for_instance. -/
def in_window_calc (start_minutes end_minutes current_minutes : Int) : Bool :=
  if start_minutes ≤ end_minutes then
    decide (start_minutes ≤ current_minutes ∧ current_minutes < end_minutes)
  else
    decide (current_minutes ≥ start_minutes ∨ current_minutes < end_minutes)

/-- Minutes-of-day computation of _check_schedule_for_instance
(lines 1778 to 1785); current_minutes stands for
now.hour * 60 + now.minute of line 1778. -/
def compute_in_window (cfg : AdvancedRunConfig) (current_minutes : Int) : Bool :=
  let start_minutes := cfg.schedule_start_hour * 60 + cfg.schedule_start_minute
  let end_minutes := cfg.schedule_end_hour * 60 + cfg.schedule_end_minute
  in_window_calc start_minutes end_minutes current_minutes

/-- Window formula exactly as the specification words it, kept separate
from the code-derived in_window_calc so the two can be compared. -/
def spec_in_window (start_minutes end_minutes current : Int) : Prop :=
  if start_minutes ≤ end_minutes then
    start_minutes ≤ current ∧ current < end_minutes
  else
    current ≥ start_minutes ∨ current < end_minutes

/-- Daytime schedule config of the specification examples: start 08:00,
end 22:00 (these are the dataclass defaults). -/
def cfgDaySchedule : AdvancedRunConfig := { mode := "schedule" }

/-- Overnight schedule config of the specification examples: start 22:00,
end 06:00. -/
def cfgOvernightSchedule : AdvancedRunConfig :=
  { mode := "schedule", schedule_start_hour := 22, schedule_end_hour := 6 }

/-- AdvancedRunDialog input validation, the try block of
_build_and_validate_config (lines 898 to 931), modelled from the integer
field values onward (a non-numeric form entry already raises in int() and
is likewise rejected).  Timer mode: negative hours or minutes, or both
zero, raise; schedule mode: any of the four time fields out of range
raises; any raise makes the dialog return None, so only validated configs
reach the Start path. -/
def build_and_validate_config (c : AdvancedRunConfig) : Option AdvancedRunConfig :=
  if c.mode = "timer" then
    if c.timer_hours < 0 ∨ c.timer_minutes < 0 then none
    else if c.timer_hours = 0 ∧ c.timer_minutes = 0 then none
    else some c
  else if c.mode = "schedule" then
    if ¬ (0 ≤ c.schedule_start_hour ∧ c.schedule_start_hour ≤ 23) then none
    else if ¬ (0 ≤ c.schedule_start_minute ∧ c.schedule_start_minute ≤ 59) then none
    else if ¬ (0 ≤ c.schedule_end_hour ∧ c.schedule_end_hour ≤ 23) then none
    else if ¬ (0 ≤ c.schedule_end_minute ∧ c.schedule_end_minute ≤ 59) then none
    else some c
  else some c

/-- HTTP actions the application sends to an instance, one constructor
per WranglerClient call used by the automation paths: run_order,
resume_orders, stop_gently and go_home. -/
inductive Dispatch where
  | runOrder
  | resumeOrders
  | stopGently
  | goHome
  deriving DecidableEq

/-- Decision core of _check_schedule_for_instance (lines 1787 to 1827):
given the instance go_home_after_session flag, the schedule config, the
stored last_action (a Python string or None, hence Option String), the
status fetched at line 1787 and the current minutes of day, it returns
the new last_action together with the list of HTTP actions the spawned
worker thread will send, in order.  In window with last_action not
started and the agent not executing, a run or resume is dispatched and
last_action becomes started; out of window with last_action not stopped
and the agent executing, a gentle stop is dispatched (followed by a
go-home when configured) and last_action becomes stopped; otherwise
nothing changes.  The code never consults status.reachable here. -/
def check_schedule_decision (go_home : Bool) (cfg : AdvancedRunConfig)
    (last_action : Option String) (status : InstanceStatus)
    (current_minutes : Int) : Option String × List Dispatch :=
  if compute_in_window cfg current_minutes then
    if last_action ≠ some "started" ∧ status.is_executing = false then
      (some "started", [if cfg.use_resume then Dispatch.resumeOrders else Dispatch.runOrder])
    else
      (last_action, [])
  else
    if last_action ≠ some "stopped" ∧ status.is_executing = true then
      (some "stopped", Dispatch.stopGently :: (if go_home then [Dispatch.goHome] else []))
    else
      (last_action, [])

/-- Entry of the active_timers dict (built at lines 1685 to 1689):
absolute end_time, the stopped flag, and the go_home_after_session flag
of the instance object the entry holds a reference to. -/
structure TimerData where
  end_time : Int
  stopped : Bool
  go_home : Bool
  deriving DecidableEq

/-- Per-entry body of the _check_timers loop (lines 1734 to 1757):
returns the updated entry, whether its key joins keys_to_remove, and the
actions its spawned do_stop thread will send in order (a gentle stop,
then a go-home when configured).  A stopped entry is skipped; an armed
entry fires exactly when now is at or past end_time, which also marks it
stopped and schedules its removal.  The thread result is never read, so
a failed stop leaves no trace in the state. -/
def check_timers_entry (now : Int) (td : TimerData) : TimerData × Bool × List Dispatch :=
  if td.stopped then
    (td, false, [])
  else if td.end_time ≤ now then
    ({ td with stopped := true }, true,
      Dispatch.stopGently :: (if td.go_home then [Dispatch.goHome] else []))
  else
    (td, false, [])

/-- The _check_timers pass (lines 1729 to 1760) over the active_timers
entries in iteration order: processes every entry, then deletes the keys
collected in keys_to_remove; dispatches are tagged with their key. -/
def check_timers (now : Int) :
    List (String × TimerData) → List (String × TimerData) × List (String × Dispatch)
  | [] => ([], [])
  | (k, td) :: rest =>
      ((if (check_timers_entry now td).2.1 then (check_timers now rest).1
        else (k, (check_timers_entry now td).1) :: (check_timers now rest).1),
       (check_timers_entry now td).2.2.map (fun d => (k, d)) ++ (check_timers now rest).2)

/-- Entry of the active_schedules dict (built at lines 1714 to 1718):
the config snapshot, the last_action dedup guard, and the
go_home_after_session flag of the referenced instance. -/
structure ScheduleData where
  config : AdvancedRunConfig
  last_action : Option String
  go_home : Bool
  deriving DecidableEq

/-- The _check_schedules pass (lines 1762 to 1765) over the
active_schedules entries in iteration order; statusOf gives the status
fetched at line 1787 for each key during this pass. -/
def check_schedules (now_minutes : Int) (statusOf : String → InstanceStatus) :
    List (String × ScheduleData) → List (String × ScheduleData) × List (String × Dispatch)
  | [] => ([], [])
  | (k, sd) :: rest =>
      ((k, { sd with
              last_action :=
                (check_schedule_decision sd.go_home sd.config sd.last_action
                  (statusOf k) now_minutes).1 }) ::
          (check_schedules now_minutes statusOf rest).1,
       (check_schedule_decision sd.go_home sd.config sd.last_action
            (statusOf k) now_minutes).2.map (fun d => (k, d)) ++
          (check_schedules now_minutes statusOf rest).2)

/-- Iterated _check_timers passes, one per entry of times, threading the
timer state and collecting every dispatch in order. -/
def run_timer_ticks :
    List Int → List (String × TimerData) → List (String × TimerData) × List (String × Dispatch)
  | [], ts => (ts, [])
  | t :: rest, ts =>
      ((run_timer_ticks rest (check_timers t ts).1).1,
       (check_timers t ts).2 ++ (run_timer_ticks rest (check_timers t ts).1).2)

/-- Iterated schedule decisions for one agent, one per entry of ticks
(each a pair of current minutes of day and the status fetched on that
tick), threading last_action and collecting every dispatch. -/
def run_schedule_ticks (go_home : Bool) (cfg : AdvancedRunConfig) :
    Option String → List (Int × InstanceStatus) → Option String × List Dispatch
  | la, [] => (la, [])
  | la, (nm, st) :: rest =>
      ((run_schedule_ticks go_home cfg (check_schedule_decision go_home cfg la st nm).1 rest).1,
       (check_schedule_decision go_home cfg la st nm).2 ++
         (run_schedule_ticks go_home cfg (check_schedule_decision go_home cfg la st nm).1 rest).2)

/-- Mutable application state touched by the supervision paths: the
registered instance keys (self.instances, keyed host:port), the
active_timers and active_schedules dicts, and the pending list, which
records dispatch work already handed to a spawned daemon thread but not
yet delivered over HTTP.  The code never cancels a spawned thread, so
pending shrinks only by delivery. -/
structure AppState where
  instances : List String
  active_timers : List (String × TimerData)
  active_schedules : List (String × ScheduleData)
  pending : List (String × Dispatch)
  deriving DecidableEq

/-- Dispatches spawned by one poll iteration (lines 1479 to 1484): the
timer pass and the schedule pass, in program order.  The display refresh
_refresh_all_async also runs in the iteration but spawns no automation
dispatch and mutates none of this state. -/
def tick_dispatches (now now_minutes : Int) (statusOf : String → InstanceStatus)
    (s : AppState) : List (String × Dispatch) :=
  (check_timers now s.active_timers).2 ++
    (check_schedules now_minutes statusOf s.active_schedules).2

/-- One poll iteration (lines 1479 to 1484) acting on the application
state: timers and schedules are updated and the spawned dispatches are
appended to pending. -/
def tick (now now_minutes : Int) (statusOf : String → InstanceStatus)
    (s : AppState) : AppState :=
  { s with
    active_timers := (check_timers now s.active_timers).1,
    active_schedules := (check_schedules now_minutes statusOf s.active_schedules).1,
    pending := s.pending ++ tick_dispatches now now_minutes statusOf s }

/-- The _on_panel_remove handler (lines 1829 to 1841) after the user
confirms: within the one handler invocation it deletes the key from
active_timers and active_schedules and removes the instance from the
registry.  It does not touch pending: the code has no cancellation for
already spawned dispatch threads. -/
def panel_remove (k : String) (s : AppState) : AppState :=
  { instances := s.instances.filter (fun n => n ≠ k),
    active_timers := s.active_timers.filter (fun p => p.1 ≠ k),
    active_schedules := s.active_schedules.filter (fun p => p.1 ≠ k),
    pending := s.pending }

/-- The _start_timer_mode activation (lines 1679 to 1708): records the
timer entry under the instance key (replacing any previous entry for the
key, as dict assignment does) and spawns the initial run-or-resume
dispatch. -/
def start_timer_mode (k : String) (now : Int) (cfg : AdvancedRunConfig) (gh : Bool)
    (s : AppState) : AppState :=
  let duration_seconds := cfg.timer_hours * 3600 + cfg.timer_minutes * 60
  { s with
    active_timers :=
      (k, { end_time := now + duration_seconds, stopped := false, go_home := gh }) ::
        s.active_timers.filter (fun p => p.1 ≠ k),
    pending := s.pending ++
      [(k, if cfg.use_resume then Dispatch.resumeOrders else Dispatch.runOrder)] }

/-- The _start_schedule_mode activation (lines 1710 to 1727): records the
schedule entry with last_action None under the instance key, then
immediately runs _check_schedule_for_instance for that key with the
given decision-time minutes and fetched status. -/
def start_schedule_mode (k : String) (cfg : AdvancedRunConfig) (gh : Bool)
    (decision_minutes : Int) (decision_status : InstanceStatus)
    (s : AppState) : AppState :=
  let r := check_schedule_decision gh cfg none decision_status decision_minutes
  { s with
    active_schedules :=
      (k, { config := cfg, last_action := r.1, go_home := gh }) ::
        s.active_schedules.filter (fun p => p.1 ≠ k),
    pending := s.pending ++ r.2.map (fun d => (k, d)) }

/-- Delivery of the oldest pending dispatch: the spawned daemon thread
performs its HTTP call on the instance reference it captured.  Nothing
in the code consults the registry here, so delivery is unconditional. -/
def land (s : AppState) : AppState × Option (String × Dispatch) :=
  match s.pending with
  | [] => (s, none)
  | d :: rest => ({ s with pending := rest }, some d)

/-- Registry coherence of the ephemeral automation state: every
active_timers and active_schedules key names a registered instance. -/
def StateInv (s : AppState) : Prop :=
  (∀ p ∈ s.active_timers, p.1 ∈ s.instances) ∧
    (∀ p ∈ s.active_schedules, p.1 ∈ s.instances)

/-- One iteration of the poll loop (lines 1479 to 1484) seen from a
single enabled instance with an active schedule, with the status fetches
numbered in program order: _refresh_all_async fetches a status used only
for the panel display (fetch 0), _check_timers consults no status, and
_check_schedule_for_instance fetches a second status at line 1787
(fetch 1) on which the supervision decision is made.  The result pairs
the display status with the decision. -/
def poll_cycle (go_home : Bool) (cfg : AdvancedRunConfig) (la : Option String)
    (fetch : Nat → InstanceStatus) (now_minutes : Int) :
    InstanceStatus × (Option String × List Dispatch) :=
  (fetch 0, check_schedule_decision go_home cfg la (fetch 1) now_minutes)

/-- Reachable status of an executing agent. -/
def statusExecuting : InstanceStatus :=
  { state := "executing", is_executing := true, reachable := true }

/-- Reachable status of an idle agent. -/
def statusIdle : InstanceStatus := { state := "idle", reachable := true }

/-- Concrete state with one registered agent holding an armed timer that
expires at time 10. -/
def exTimerState : AppState :=
  { instances := ["a:1"],
    active_timers := [("a:1", { end_time := 10, stopped := false, go_home := false })],
    active_schedules := [],
    pending := [] }

/-- C1: the in-window computation agrees with the specification formula
for every configuration and current time, and takes the specified values
on the 08:00-22:00 and 22:00-06:00 example tables (times given as
minutes of day: 07:59 = 479, 08:00 = 480, 21:59 = 1319, 22:00 = 1320,
23:00 = 1380, 05:59 = 359, 06:00 = 360, 12:00 = 720). -/
theorem c1_in_window_matches_spec :
    (∀ (cfg : AdvancedRunConfig) (current : Int),
      compute_in_window cfg current = true ↔
        spec_in_window (cfg.schedule_start_hour * 60 + cfg.schedule_start_minute)
          (cfg.schedule_end_hour * 60 + cfg.schedule_end_minute) current) ∧
    compute_in_window cfgDaySchedule 479 = false ∧
    compute_in_window cfgDaySchedule 480 = true ∧
    compute_in_window cfgDaySchedule 1319 = true ∧
    compute_in_window cfgDaySchedule 1320 = false ∧
    compute_in_window cfgOvernightSchedule 1380 = true ∧
    compute_in_window cfgOvernightSchedule 359 = true ∧
    compute_in_window cfgOvernightSchedule 360 = false ∧
    compute_in_window cfgOvernightSchedule 720 = false := by
  refine ⟨?_, by decide⟩
  intro cfg current
  simp only [compute_in_window, in_window_calc, spec_in_window]
  split_ifs <;> simp

/-- C7: configuration validation accepts a timer-mode config exactly when
its hours and minutes are nonnegative and not both zero, accepts a
schedule-mode config exactly when all four time-of-day fields are in
range, and in particular rejects the zero-duration timer and a schedule
with start hour 24. -/
theorem c7_config_validation (c : AdvancedRunConfig) :
    (c.mode = "timer" →
      (build_and_validate_config c = some c ↔
        (0 ≤ c.timer_hours ∧ 0 ≤ c.timer_minutes ∧
          ¬ (c.timer_hours = 0 ∧ c.timer_minutes = 0)))) ∧
    (c.mode = "schedule" →
      (build_and_validate_config c = some c ↔
        (0 ≤ c.schedule_start_hour ∧ c.schedule_start_hour ≤ 23 ∧
         0 ≤ c.schedule_start_minute ∧ c.schedule_start_minute ≤ 59 ∧
         0 ≤ c.schedule_end_hour ∧ c.schedule_end_hour ≤ 23 ∧
         0 ≤ c.schedule_end_minute ∧ c.schedule_end_minute ≤ 59))) ∧
    build_and_validate_config { mode := "timer", timer_hours := 0, timer_minutes := 0 } = none ∧
    build_and_validate_config { mode := "schedule", schedule_start_hour := 24 } = none := by
  refine ⟨?_, ?_, by decide, by decide⟩
  · intro h
    simp only [build_and_validate_config, h]
    split_ifs <;> simp <;> omega
  · intro h
    have hmode : ¬ c.mode = "timer" := by
      rw [h]; decide
    unfold build_and_validate_config
    rw [if_neg hmode, if_pos h]
    split_ifs with h1 h2 h3 h4 <;> simp <;> omega

/-- Witness for c7_config_validation: a one-hour timer config satisfies
the acceptance bounds and is accepted. -/
theorem c7_config_validation_witness :
    build_and_validate_config { mode := "timer", timer_hours := 1, timer_minutes := 0 } =
      some { mode := "timer", timer_hours := 1, timer_minutes := 0 } :=
  ((c7_config_validation { mode := "timer", timer_hours := 1, timer_minutes := 0 }).1
    rfl).mpr (by decide)

/-- C8: the status fetch is a total function of the fetch outcome.  A 200
response with well-formed JSON yields reachable true, no error, and the
parsed fields with their data.get defaults; a non-200 response, a decode
failure, a timeout, a refused connection, and any other exception all
yield reachable false together with the corresponding error
classification string. -/
theorem c8_get_status_total :
    (∀ d : StatusJson,
      (get_status (.response 200 (.ok d))).reachable = true ∧
      (get_status (.response 200 (.ok d))).error = none ∧
      (get_status (.response 200 (.ok d))).state = d.state.getD "unknown" ∧
      (get_status (.response 200 (.ok d))).is_executing = d.isExecuting.getD false ∧
      (get_status (.response 200 (.ok d))).has_incomplete_orders = d.hasIncompleteOrders.getD false ∧
      (get_status (.response 200 (.ok d))).current_file = d.currentFile.getD "None" ∧
      (get_status (.response 200 (.ok d))).character_name = d.characterName.getD "Unknown" ∧
      (get_status (.response 200 (.ok d))).world_name = d.worldName.getD "Unknown" ∧
      (get_status (.response 200 (.ok d))).runtime_seconds = d.runtimeSeconds.getD 0) ∧
    (∀ m : String,
      (get_status (.response 200 (.error m))).reachable = false ∧
      (get_status (.response 200 (.error m))).error = some m) ∧
    (∀ (code : Int) (p : Except String StatusJson), code ≠ 200 →
      (get_status (.response code p)).reachable = false ∧
      (get_status (.response code p)).error = some ("HTTP " ++ toString code)) ∧
    (get_status .timeout).reachable = false ∧
    (get_status .timeout).error = some "Timeout" ∧
    (get_status .connectionError).reachable = false ∧
    (get_status .connectionError).error = some "Connection refused" ∧
    (∀ m : String,
      (get_status (.otherError m)).reachable = false ∧
      (get_status (.otherError m)).error = some m) := by
  refine ⟨fun d => ?_, fun m => ?_, fun code p h => ?_, rfl, rfl, rfl, rfl, fun m => ⟨rfl, rfl⟩⟩
  · simp [get_status, parse_status_fields]
  · simp [get_status]
  · simp [get_status, h]

/-- Witness for c8_get_status_total: a 404 response is classified as an
unreachable status carrying the HTTP error string. -/
theorem c8_get_status_total_witness :
    (get_status (.response 404 (.error "boom"))).reachable = false ∧
    (get_status (.response 404 (.error "boom"))).error = some ("HTTP " ++ toString (404 : Int)) :=
  c8_get_status_total.2.2.1 404 (.error "boom") (by decide)

/-- C10: set_advanced_config followed by get_advanced_config returns the
stored configuration unchanged (so field by field equal), and
get_advanced_config on an instance whose config was never set returns the
default configuration: mode none, timer 0 h 30 m, schedule 08:00 to
22:00, use_resume false.  Both accessors are pure functions of the
instance, and set only rewrites the advanced_config field. -/
theorem c10_advanced_config_roundtrip (i : WranglerInstance) (c : AdvancedRunConfig) :
    get_advanced_config (set_advanced_config i c) = c ∧
    (set_advanced_config i c).name = i.name ∧
    (set_advanced_config i c).host = i.host ∧
    (set_advanced_config i c).port = i.port ∧
    (set_advanced_config i c).enabled = i.enabled ∧
    (set_advanced_config i c).go_home_after_session = i.go_home_after_session ∧
    (i.advanced_config = none →
      get_advanced_config i =
        { mode := "none", timer_hours := 0, timer_minutes := 30,
          schedule_start_hour := 8, schedule_start_minute := 0,
          schedule_end_hour := 22, schedule_end_minute := 0,
          use_resume := false }) := by
  refine ⟨?_, rfl, rfl, rfl, rfl, rfl, fun h => ?_⟩
  · cases c
    simp [get_advanced_config, set_advanced_config]
  · simp [get_advanced_config, h]

/-- Witness for c10_advanced_config_roundtrip: on a concrete fresh
instance the roundtrip returns the stored config and the default is
produced before any set. -/
theorem c10_advanced_config_roundtrip_witness :
    get_advanced_config
        (set_advanced_config { name := "a", host := "localhost", port := 7800 }
          cfgOvernightSchedule) = cfgOvernightSchedule ∧
    get_advanced_config { name := "a", host := "localhost", port := 7800 } =
      { mode := "none", timer_hours := 0, timer_minutes := 30,
        schedule_start_hour := 8, schedule_start_minute := 0,
        schedule_end_hour := 22, schedule_end_minute := 0,
        use_resume := false } :=
  ⟨(c10_advanced_config_roundtrip { name := "a", host := "localhost", port := 7800 }
      cfgOvernightSchedule).1,
   (c10_advanced_config_roundtrip { name := "a", host := "localhost", port := 7800 }
      cfgOvernightSchedule).2.2.2.2.2.2 rfl⟩

/-- Helper: a timer pass over an empty timer dict does nothing, so every
further pass after all timers were removed dispatches nothing. -/
theorem run_timer_ticks_nil (times : List Int) : run_timer_ticks times [] = ([], []) := by
  induction times with
  | nil => rfl
  | cons t rest ih => simp [run_timer_ticks, check_timers, ih]

/-- Helper: an in-window schedule tick with last_action started changes
nothing and dispatches nothing. -/
theorem sched_step_started (gh : Bool) (cfg : AdvancedRunConfig)
    (st : InstanceStatus) (nm : Int) (hw : compute_in_window cfg nm = true) :
    check_schedule_decision gh cfg (some "started") st nm = (some "started", []) := by
  simp [check_schedule_decision, hw]

/-- Helper: the timer pass only keeps entries whose key was already a key
of the timer dict. -/
theorem check_timers_state_keys (now : Int) (ts : List (String × TimerData)) :
    ∀ p ∈ (check_timers now ts).1, p.1 ∈ ts.map Prod.fst := by
  induction ts with
  | nil => intro p hp; simp [check_timers] at hp
  | cons q rest ih =>
      obtain ⟨k, td⟩ := q
      intro p hp
      simp only [check_timers] at hp
      by_cases hr : (check_timers_entry now td).2.1 = true
      · rw [if_pos hr] at hp
        simp only [List.map_cons]
        exact List.mem_cons_of_mem _ (ih p hp)
      · rw [if_neg hr] at hp
        rcases List.mem_cons.mp hp with h1 | h1
        · rw [h1]; simp
        · simp only [List.map_cons]
          exact List.mem_cons_of_mem _ (ih p h1)

/-- Helper: every dispatch spawned by the timer pass is tagged with a key
of the timer dict. -/
theorem check_timers_dispatch_keys (now : Int) (ts : List (String × TimerData)) :
    ∀ q ∈ (check_timers now ts).2, q.1 ∈ ts.map Prod.fst := by
  induction ts with
  | nil => intro q hq; simp [check_timers] at hq
  | cons e rest ih =>
      obtain ⟨k, td⟩ := e
      intro q hq
      simp only [check_timers] at hq
      rcases List.mem_append.mp hq with h1 | h1
      · rcases List.mem_map.mp h1 with ⟨d, _, hdq⟩
        rw [← hdq]; simp
      · simp only [List.map_cons]
        exact List.mem_cons_of_mem _ (ih q h1)

/-- Helper: the schedule pass keeps exactly the keys of the schedule
dict. -/
theorem check_schedules_state_keys (nm : Int) (statusOf : String → InstanceStatus)
    (ts : List (String × ScheduleData)) :
    ((check_schedules nm statusOf ts).1).map Prod.fst = ts.map Prod.fst := by
  induction ts with
  | nil => rfl
  | cons e rest ih =>
      obtain ⟨k, sd⟩ := e
      simp [check_schedules, ih]

/-- Helper: every dispatch spawned by the schedule pass is tagged with a
key of the schedule dict. -/
theorem check_schedules_dispatch_keys (nm : Int) (statusOf : String → InstanceStatus)
    (ts : List (String × ScheduleData)) :
    ∀ q ∈ (check_schedules nm statusOf ts).2, q.1 ∈ ts.map Prod.fst := by
  induction ts with
  | nil => intro q hq; simp [check_schedules] at hq
  | cons e rest ih =>
      obtain ⟨k, sd⟩ := e
      intro q hq
      simp only [check_schedules] at hq
      rcases List.mem_append.mp hq with h1 | h1
      · rcases List.mem_map.mp h1 with ⟨d, _, hdq⟩
        rw [← hdq]; simp
      · simp only [List.map_cons]
        exact List.mem_cons_of_mem _ (ih q h1)

/-- Helper: after filtering out key k, k is no longer among the keys. -/
theorem not_mem_filter_keys {α : Type} (k : String) (l : List (String × α)) :
    k ∉ (l.filter (fun p => p.1 ≠ k)).map Prod.fst := by
  intro h
  rcases List.mem_map.mp h with ⟨p, hp, hpk⟩
  have hne := (List.mem_filter.mp hp).2
  simp only [ne_eq, decide_not, Bool.not_eq_true', decide_eq_false_iff_not] at hne
  exact hne hpk

/-- C3: an armed timer does not fire before its end time; once now
reaches end_time, one pass dispatches exactly one gentle stop, followed
by a go-home exactly when goHomeAfterSession is set, and deletes the
entry, so across any nonempty sequence of passes at or after expiry the
complete dispatch list is that single stop (plus its go-home follow-up):
no later pass dispatches again, whether or not the stop succeeded, since
the thread result is never read. -/
theorem c3_timer_expiry_once (k : String) (e : Int) (gh : Bool)
    (times : List Int) (t : Int) :
    (t < e →
      check_timers t [(k, { end_time := e, stopped := false, go_home := gh })] =
        ([(k, { end_time := e, stopped := false, go_home := gh })], [])) ∧
    (times ≠ [] → (∀ u ∈ times, e ≤ u) →
      run_timer_ticks times [(k, { end_time := e, stopped := false, go_home := gh })] =
        ([], (k, Dispatch.stopGently) :: (if gh then [(k, Dispatch.goHome)] else []))) := by
  constructor
  · intro h
    simp [check_timers, check_timers_entry, not_le.mpr h]
  · intro hne hall
    match times, hne with
    | t0 :: rest, _ =>
        have h0 : e ≤ t0 := hall t0 (List.mem_cons_self _ _)
        simp [run_timer_ticks, check_timers, check_timers_entry, h0, run_timer_ticks_nil]
        cases gh <;> simp

/-- Witness for c3_timer_expiry_once: a timer expiring at 10 with
go-home set, over three passes at times 10, 20 and 30, dispatches one
stop then one go-home and nothing more. -/
theorem c3_timer_expiry_once_witness :
    run_timer_ticks [10, 20, 30]
        [("a:1", { end_time := 10, stopped := false, go_home := true })] =
      ([], [("a:1", Dispatch.stopGently), ("a:1", Dispatch.goHome)]) := by
  have h := (c3_timer_expiry_once "a:1" 10 true [10, 20, 30] 0).2 (by decide) (by decide)
  simpa using h

/-- C4: schedule-mode start dispatch is idempotent across ticks: with
last_action started, any number of further ticks whose times stay in
window and whose fetched statuses remain executing dispatches nothing
and leaves last_action unchanged. -/
theorem c4_schedule_start_idempotent (gh : Bool) (cfg : AdvancedRunConfig)
    (ticks : List (Int × InstanceStatus))
    (h : ∀ p ∈ ticks, compute_in_window cfg p.1 = true ∧ p.2.is_executing = true) :
    run_schedule_ticks gh cfg (some "started") ticks = (some "started", []) := by
  induction ticks with
  | nil => rfl
  | cons p rest ih =>
      obtain ⟨nm, st⟩ := p
      have hw := (h (nm, st) (List.mem_cons_self _ _)).1
      have hstep := sched_step_started gh cfg st nm hw
      simp [run_schedule_ticks, hstep,
        ih (fun q hq => h q (List.mem_cons_of_mem _ hq))]

/-- Witness for c4_schedule_start_idempotent: three executing in-window
ticks of the default 08:00 to 22:00 schedule dispatch nothing. -/
theorem c4_schedule_start_idempotent_witness :
    run_schedule_ticks false cfgDaySchedule (some "started")
        [(600, statusExecuting), (700, statusExecuting), (800, statusExecuting)] =
      (some "started", []) :=
  c4_schedule_start_idempotent false cfgDaySchedule
    [(600, statusExecuting), (700, statusExecuting), (800, statusExecuting)] (by decide)

/-- C2: evaluation at the failing input.  On a tick where the agent is
unreachable (here a timeout), the fetched status has is_executing false,
so in window at 10:00 with last_action None the code dispatches a run
order and sets last_action to started, although the agent could not
receive it; on the next tick with the agent reachable, idle and still in
window, nothing is dispatched because last_action is already started.
The code therefore changes automation state on an unreachable tick and
dispatches zero starts on the first reachable tick, contradicting the
claim that unreachable ticks are skipped without state change. -/
theorem c2_unreachable_tick_mutates_state :
    (get_status FetchOutcome.timeout).reachable = false ∧
    (get_status FetchOutcome.timeout).is_executing = false ∧
    check_schedule_decision false cfgDaySchedule none (get_status FetchOutcome.timeout) 600 =
      (some "started", [Dispatch.runOrder]) ∧
    check_schedule_decision false cfgDaySchedule (some "started") statusIdle 610 =
      (some "started", []) := by decide

/-- C5 (amended): the remove handler deletes, in its single invocation,
the instance together with its timer and schedule entries, so a tick
running entirely after removal spawns no dispatch for the removed key;
registry coherence of the automation state is preserved by removal, by
ticks, and by the two activation paths (which the UI only reaches for a
registered instance).  Dispatch work already spawned before removal is
not covered: the code does not cancel it. -/
theorem c5_remove_deletes_state (s : AppState) (k : String) (now now_minutes : Int)
    (statusOf : String → InstanceStatus) (cfg : AdvancedRunConfig) (gh : Bool)
    (dmin : Int) (dstat : InstanceStatus) :
    (∀ td, (k, td) ∉ (panel_remove k s).active_timers) ∧
    (∀ sd, (k, sd) ∉ (panel_remove k s).active_schedules) ∧
    k ∉ (panel_remove k s).instances ∧
    (∀ d, (k, d) ∉ tick_dispatches now now_minutes statusOf (panel_remove k s)) ∧
    (StateInv s → StateInv (panel_remove k s)) ∧
    (StateInv s → StateInv (tick now now_minutes statusOf s)) ∧
    (StateInv s → k ∈ s.instances → StateInv (start_timer_mode k now cfg gh s)) ∧
    (StateInv s → k ∈ s.instances → StateInv (start_schedule_mode k cfg gh dmin dstat s)) := by
  refine ⟨?_, ?_, ?_, ?_, ?_, ?_, ?_, ?_⟩
  · intro td h
    have := (List.mem_filter.mp h).2
    simp at this
  · intro sd h
    have := (List.mem_filter.mp h).2
    simp at this
  · intro h
    have := (List.mem_filter.mp h).2
    simp at this
  · intro d hd
    rcases List.mem_append.mp hd with h1 | h1
    · exact not_mem_filter_keys k s.active_timers
        (check_timers_dispatch_keys now _ (k, d) h1)
    · exact not_mem_filter_keys k s.active_schedules
        (check_schedules_dispatch_keys now_minutes statusOf _ (k, d) h1)
  · intro hinv
    constructor
    · intro p hp
      have hmem := List.mem_of_mem_filter hp
      have hkey := (List.mem_filter.mp hp).2
      simp only [ne_eq, decide_not, Bool.not_eq_true', decide_eq_false_iff_not] at hkey
      exact List.mem_filter.mpr ⟨hinv.1 p hmem, by simpa using hkey⟩
    · intro p hp
      have hmem := List.mem_of_mem_filter hp
      have hkey := (List.mem_filter.mp hp).2
      simp only [ne_eq, decide_not, Bool.not_eq_true', decide_eq_false_iff_not] at hkey
      exact List.mem_filter.mpr ⟨hinv.2 p hmem, by simpa using hkey⟩
  · intro hinv
    constructor
    · intro p hp
      have h1 := check_timers_state_keys now s.active_timers p hp
      rcases List.mem_map.mp h1 with ⟨q, hq, hq1⟩
      rw [← hq1]
      exact hinv.1 q hq
    · intro p hp
      have h1 : p.1 ∈ ((check_schedules now_minutes statusOf s.active_schedules).1).map Prod.fst :=
        List.mem_map_of_mem Prod.fst hp
      rw [check_schedules_state_keys] at h1
      rcases List.mem_map.mp h1 with ⟨q, hq, hq1⟩
      rw [← hq1]
      exact hinv.2 q hq
  · intro hinv hk
    constructor
    · intro p hp
      rcases List.mem_cons.mp hp with h1 | h1
      · rw [h1]; exact hk
      · exact hinv.1 p (List.mem_of_mem_filter h1)
    · intro p hp
      exact hinv.2 p hp
  · intro hinv hk
    constructor
    · intro p hp
      exact hinv.1 p hp
    · intro p hp
      rcases List.mem_cons.mp hp with h1 | h1
      · rw [h1]; exact hk
      · exact hinv.2 p (List.mem_of_mem_filter h1)

/-- Witness for c5_remove_deletes_state: on the concrete one-timer state,
removal deletes the key everywhere, the next tick spawns nothing for it,
and the preservation parts hold with their hypotheses discharged. -/
theorem c5_remove_deletes_state_witness :
    "a:1" ∉ (panel_remove "a:1" exTimerState).instances ∧
    (∀ d, ("a:1", d) ∉ tick_dispatches 10 0 (fun _ => statusIdle) (panel_remove "a:1" exTimerState)) ∧
    StateInv (tick 10 0 (fun _ => statusIdle) exTimerState) ∧
    StateInv (start_timer_mode "a:1" 10 cfgDaySchedule false exTimerState) := by
  have h := c5_remove_deletes_state exTimerState "a:1" 10 0 (fun _ => statusIdle)
    cfgDaySchedule false 0 statusIdle
  have hinv : StateInv exTimerState := by
    constructor
    · intro p hp
      simp only [exTimerState, List.mem_singleton] at hp
      rw [hp]
      simp [exTimerState]
    · intro p hp
      simp [exTimerState] at hp
  exact ⟨h.2.2.1, h.2.2.2.1,
    h.2.2.2.2.2.1 hinv,
    h.2.2.2.2.2.2.1 hinv (by decide)⟩

/-- C5 counterexample: a tick already completed before removal has
spawned its stop dispatch; removing the agent immediately afterwards
deletes the agent, yet the spawned dispatch still lands for the removed
key, so removal does not eliminate dispatch from a tick that was in
flight. -/
theorem c5_inflight_dispatch_lands :
    "a:1" ∉ (panel_remove "a:1" (tick 10 0 (fun _ => statusIdle) exTimerState)).instances ∧
    (land (panel_remove "a:1" (tick 10 0 (fun _ => statusIdle) exTimerState))).2 =
      some ("a:1", Dispatch.stopGently) := by decide

/-- C6 counterexample: supervisor decisions are not a function of the
snapshot fetched at the start of the tick.  Two runs whose display
fetches agree (fetch 0 identical) but whose decision-time fetches differ
produce different decisions, because _check_schedule_for_instance
fetches its own status at line 1787 instead of consulting the
snapshot. -/
theorem c6_decision_not_from_snapshot :
    ¬ (∀ (f g : Nat → InstanceStatus) (gh : Bool) (cfg : AdvancedRunConfig)
        (la : Option String) (nm : Int),
        f 0 = g 0 →
        (poll_cycle gh cfg la f nm).2 = (poll_cycle gh cfg la g nm).2) := by
  intro h
  have hc := h (fun _ => statusExecuting)
    (fun n => if n = 0 then statusExecuting else statusIdle)
    false cfgDaySchedule none 600 (by decide)
  exact absurd hc (by decide)

/-- C6 (amended): within one tick the display status is fetched first
(fetch 0) and shown, but each supervisor decision is computed from the
separate status fetched at decision time (fetch 1) and from nothing
else: two runs agreeing on the decision-time fetch decide identically,
whatever their display snapshots were. -/
theorem c6_decision_uses_decision_time_fetch (gh : Bool) (cfg : AdvancedRunConfig)
    (la : Option String) (f g : Nat → InstanceStatus) (nm : Int) (h : f 1 = g 1) :
    (poll_cycle gh cfg la f nm).1 = f 0 ∧
    (poll_cycle gh cfg la f nm).2 = check_schedule_decision gh cfg la (f 1) nm ∧
    (poll_cycle gh cfg la f nm).2 = (poll_cycle gh cfg la g nm).2 := by
  refine ⟨rfl, rfl, ?_⟩
  simp [poll_cycle, h]

/-- Witness for c6_decision_uses_decision_time_fetch: two fetch streams
with different display statuses but the same decision-time status yield
the same decision. -/
theorem c6_decision_uses_decision_time_fetch_witness :
    (poll_cycle false cfgDaySchedule none (fun _ => statusIdle) 600).2 =
      (poll_cycle false cfgDaySchedule none
        (fun n => if n = 1 then statusIdle else statusExecuting) 600).2 :=
  (c6_decision_uses_decision_time_fetch false cfgDaySchedule none
    (fun _ => statusIdle) (fun n => if n = 1 then statusIdle else statusExecuting)
    600 (by decide)).2.2
